import Mathlib

/-!
Shallow embedding of the `restream_io` client library core
(`src/restream_io/api.py` together with its collaborators in
`src/restream_io/config.py`), covering the response-shape normalizer,
the per-item field conversions, the datetime parsing helper, the
token-refresh protocol of `RestreamClient.from_config` /
`RestreamClient._refresh_token`, and the transient-retry policy.

Python values decoded from JSON are modelled by the inductive `Json`
(numbers as `Int`: no claim depends on fractional values).  Python
exceptions are modelled by `Except PyErr`; the distinct exception
classes that the code raises or catches are the constructors of
`PyErr`.  File and network I/O are modelled by explicit environment
records: the stored token file, the wall clock and the HTTP responses
are inputs, and writes performed by the code are returned as data.
-/

namespace RestreamIO

/-- Python exceptions distinguished by the code under study. -/
inductive PyErr where
  | keyError (k : String)
  | typeError
  | attributeError
  | authenticationError (msg : String)
  | apiError (status : Option Nat) (msg : String)
deriving DecidableEq, Repr

/-- Decoded JSON values (Python objects produced by `json` decoding).
Numbers are modelled as integers; objects as association lists standing
for Python dicts (no duplicate keys). -/
inductive Json where
  | null
  | bool (b : Bool)
  | num (n : Int)
  | str (s : String)
  | arr (xs : List Json)
  | obj (fields : List (String × Json))
deriving Repr

/-- Dict lookup: value stored under key `k`, if any. -/
def jlookup (fs : List (String × Json)) (k : String) : Option Json :=
  (fs.find? (fun p => p.1 == k)).map (fun p => p.2)

/-- Python truthiness of a decoded JSON value. -/
def Json.truthy : Json → Bool
  | .null => false
  | .bool b => b
  | .num n => n != 0
  | .str s => s != ""
  | .arr xs => !xs.isEmpty
  | .obj fs => !fs.isEmpty

/-- Python subscript `data[k]`: `KeyError` on a dict without the key,
`TypeError` on a non-dict. -/
def Json.pySubscript (j : Json) (k : String) : Except PyErr Json :=
  match j with
  | .obj fs =>
    match jlookup fs k with
    | some v => .ok v
    | none => .error (.keyError k)
  | _ => .error .typeError

/-- Python `data.get(k, d)`: default on a missing key, `AttributeError`
on a non-dict receiver. -/
def Json.pyGetD (j : Json) (k : String) (d : Json) : Except PyErr Json :=
  match j with
  | .obj fs => .ok ((jlookup fs k).getD d)
  | _ => .error .attributeError

/-- Python `k in data` for a string `k`: key test on dicts, membership
on lists, substring test on strings, `TypeError` otherwise. -/
def Json.pyIn (j : Json) (k : String) : Except PyErr Bool :=
  match j with
  | .obj fs => .ok ((jlookup fs k).isSome)
  | .arr xs => .ok (xs.any (fun x => match x with | .str s => s == k | _ => false))
  | .str s => .ok (decide (List.IsInfix k.toList s.toList))
  | _ => .error .typeError

/-- Python iteration `for item in v`: elements of a list, keys of a
dict, characters of a string, `TypeError` otherwise. -/
def Json.iterList : Json → Except PyErr (List Json)
  | .arr xs => .ok xs
  | .obj fs => .ok (fs.map (fun p => Json.str p.1))
  | .str s => .ok (s.toList.map (fun c => Json.str (String.mk [c])))
  | _ => .error .typeError

/-- `isinstance(data, dict) and k in data` combined with `data[k]`:
the value under `k` when `data` is a dict containing `k`. -/
def Json.objFind (j : Json) (k : String) : Option Json :=
  match j with
  | .obj fs => jlookup fs k
  | _ => none

/-- Python numeric view used by `time.time() >= expires_at`: numbers
compare as themselves and booleans as 0/1; anything else is a
`TypeError` when compared with a float. -/
def Json.asPyNumber : Json → Option Int
  | .num n => some n
  | .bool b => some (if b then 1 else 0)
  | _ => none

/-! ### `datetime.fromisoformat`

`RestreamClient._parse_datetime` delegates to
`datetime.datetime.fromisoformat` after rewriting a trailing `Z`.
The accepted grammar (the strict pre-3.11 one, which is why the code
rewrites `Z` itself) is `YYYY-MM-DD[*HH[:MM[:SS[.fff[fff]]]][±HH:MM[:SS[.ffffff]]]]`
where `*` is any single separator character.  The parsed value is an
aware or naive datetime, modelled by `PyDateTime` with the UTC offset
in seconds when present. -/

/-- A parsed Python `datetime` value. -/
structure PyDateTime where
  year : Nat
  month : Nat
  day : Nat
  hour : Nat
  minute : Nat
  second : Nat
  microsecond : Nat
  tzOffsetSeconds : Option Int
deriving DecidableEq, Repr

/-- Read exactly `n` decimal digits, most significant first. -/
def readDigits : Nat → Nat → List Char → Option (Nat × List Char)
  | 0, acc, cs => some (acc, cs)
  | n + 1, acc, c :: cs =>
    if c.isDigit then readDigits n (acc * 10 + (c.toNat - 48)) cs else none
  | _ + 1, _, [] => none

/-- Consume one expected character. -/
def expectChar (c : Char) : List Char → Option (List Char)
  | d :: cs => if d = c then some cs else none
  | [] => none

/-- `YYYY-MM-DD`. -/
def parseDate (cs : List Char) : Option (Nat × Nat × Nat × List Char) := do
  let (y, cs) ← readDigits 4 0 cs
  let cs ← expectChar '-' cs
  let (mo, cs) ← readDigits 2 0 cs
  let cs ← expectChar '-' cs
  let (d, cs) ← readDigits 2 0 cs
  pure (y, mo, d, cs)

/-- `HH[:MM[:SS[.fff[fff]]]]`; returns hour, minute, second,
microsecond and the rest. -/
def parseTime (cs : List Char) : Option (Nat × Nat × Nat × Nat × List Char) := do
  let (hh, cs) ← readDigits 2 0 cs
  match expectChar ':' cs with
  | none => pure (hh, 0, 0, 0, cs)
  | some cs => do
    let (mi, cs) ← readDigits 2 0 cs
    match expectChar ':' cs with
    | none => pure (hh, mi, 0, 0, cs)
    | some cs => do
      let (ss, cs) ← readDigits 2 0 cs
      match expectChar '.' cs with
      | none => pure (hh, mi, ss, 0, cs)
      | some cs' =>
        match readDigits 6 0 cs' with
        | some (us, cs'') => pure (hh, mi, ss, us, cs'')
        | none => do
          let (ms, cs'') ← readDigits 3 0 cs'
          pure (hh, mi, ss, ms * 1000, cs'')

/-- `±HH:MM[:SS[.ffffff]]`, or nothing; the offset is returned in
seconds (tz microseconds, never exercised here, are dropped). -/
def parseTz (cs : List Char) : Option (Option Int × List Char) :=
  match cs with
  | [] => some (none, [])
  | c :: cs' =>
    if c = '+' || c = '-' then do
      let sign : Int := if c = '+' then 1 else -1
      let (oh, cs2) ← readDigits 2 0 cs'
      let cs3 ← expectChar ':' cs2
      let (om, cs4) ← readDigits 2 0 cs3
      let (os, rest) ←
        match expectChar ':' cs4 with
        | none => some (0, cs4)
        | some cs5 =>
          match readDigits 2 0 cs5 with
          | none => none
          | some (os, cs6) =>
            match expectChar '.' cs6 with
            | none => some (os, cs6)
            | some cs7 =>
              match readDigits 6 0 cs7 with
              | none => none
              | some (_, cs8) => some (os, cs8)
      let total : Nat := oh * 3600 + om * 60 + os
      if total < 86400 then pure (some (sign * (total : Int)), rest) else none
    else none

/-- Days in a month of a (proleptic Gregorian) year. -/
def daysInMonth (y m : Nat) : Nat :=
  if m = 2 then
    if y % 4 = 0 && (y % 100 != 0 || y % 400 = 0) then 29 else 28
  else if m = 4 || m = 6 || m = 9 || m = 11 then 30
  else 31

/-- `datetime.fromisoformat`: parse, then validate ranges as the
`datetime` constructor does; `none` models a raised `ValueError`. -/
def fromisoformat (s : String) : Option PyDateTime := do
  let (y, mo, d, rest) ← parseDate s.toList
  let (hh, mi, ss, us, tz) ←
    match rest with
    | [] => some (0, 0, 0, 0, (none : Option Int))
    | _sep :: rest' => do
      let (hh, mi, ss, us, r) ← parseTime rest'
      let (tz, r2) ← parseTz r
      if r2 = [] then some (hh, mi, ss, us, tz) else none
  if 1 ≤ y && y ≤ 9999 && 1 ≤ mo && mo ≤ 12 && 1 ≤ d && d ≤ daysInMonth y mo
      && hh ≤ 23 && mi ≤ 59 && ss ≤ 59 then
    pure ⟨y, mo, d, hh, mi, ss, us, tz⟩
  else none

/-- `dt_str.endswith('Z')`. -/
def endsWithZ (s : String) : Bool := s.toList.getLast? == some 'Z'

/-- `dt_str[:-1] + '+00:00'`. -/
def zRewrite (s : String) : String := String.mk (s.toList.dropLast ++ "+00:00".toList)

/-- `RestreamClient._parse_datetime`: falsy input yields `None`; a
trailing `Z` is rewritten to `+00:00` before the ISO parse; a parse
failure (`ValueError`/`TypeError`, caught) yields `None`; calling
`.endswith` on a truthy non-string raises `AttributeError` (uncaught). -/
def _parse_datetime (j : Json) : Except PyErr (Option PyDateTime) :=
  if !j.truthy then .ok none
  else match j with
    | .str s => .ok (fromisoformat (if endsWithZ s then zRewrite s else s))
    | _ => .error .attributeError

/-! ### Domain records (`schemas` as consumed by `api.py`)

`attrs`-style records store whatever value the conversion passed, with
no type validation, so non-datetime fields hold raw `Json` values
(`Json.null` standing for Python `None`). -/

/-- `User` as built by `_convert_user_data`. -/
structure User where
  id : Json
  username : Json
  display_name : Json
  email : Json
  avatar_url : Json
  created_at : Option PyDateTime
  verified : Json

/-- `Profile` as built by `get_profile`. -/
structure Profile where
  user : User
  subscription_plan : Json
  streaming_quota : Json
  features : Json

/-- `Channel` as built by `_convert_channel_data`. -/
structure Channel where
  id : Json
  name : Json
  platform : Json
  enabled : Json
  url : Json
  thumbnail_url : Json
  description : Json
  followers_count : Json
  created_at : Option PyDateTime
  updated_at : Option PyDateTime

/-- `StreamEvent` as built by `_convert_event_data`. -/
structure StreamEvent where
  id : Json
  title : Json
  status : Json
  type : Json
  start_time : Option PyDateTime
  end_time : Option PyDateTime
  duration : Json
  viewer_count : Json
  peak_viewers : Json
  created_at : Option PyDateTime
  updated_at : Option PyDateTime

/-- `ChannelList` (paginated channels record). -/
structure ChannelList where
  channels : List Channel
  total : Json

/-- `EventList` (paginated events record). -/
structure EventList where
  events : List StreamEvent
  total : Json
  page : Json
  per_page : Json

/-- The `Union[ChannelList, List[Channel]]` return type of
`list_channels`: a bare Python list or a paginated record. -/
inductive ChannelsResult where
  | bare (channels : List Channel)
  | paginated (l : ChannelList)

/-- The `Union[EventList, List[StreamEvent]]` return type of
`list_events`. -/
inductive EventsResult where
  | bare (events : List StreamEvent)
  | paginated (l : EventList)

/-! ### Per-item conversions -/

/-- `RestreamClient._convert_user_data`.  Arguments of the `User(...)`
call are evaluated left to right, so a missing `"id"` raises first. -/
def _convert_user_data (data : Json) : Except PyErr User := do
  let id ← data.pySubscript "id"
  let username ← data.pyGetD "username" (.str "")
  let nameDefault ← data.pyGetD "name" (.str "")
  let display_name ← data.pyGetD "display_name" nameDefault
  let email ← data.pyGetD "email" (.str "")
  let avatar_url ← data.pyGetD "avatar_url" .null
  let created_at ← _parse_datetime (← data.pyGetD "created_at" .null)
  let verified ← data.pyGetD "verified" (.bool false)
  pure ⟨id, username, display_name, email, avatar_url, created_at, verified⟩

/-- `RestreamClient._convert_channel_data`.  Both `data["id"]` and
`data["name"]` are subscripts; every other field uses `.get`. -/
def _convert_channel_data (data : Json) : Except PyErr Channel := do
  let id ← data.pySubscript "id"
  let name ← data.pySubscript "name"
  let platform ← data.pyGetD "platform" (.str "")
  let enabled ← data.pyGetD "enabled" (.bool true)
  let url ← data.pyGetD "url" .null
  let thumbnail_url ← data.pyGetD "thumbnail_url" .null
  let description ← data.pyGetD "description" .null
  let followers_count ← data.pyGetD "followers_count" .null
  let created_at ← _parse_datetime (← data.pyGetD "created_at" .null)
  let updated_at ← _parse_datetime (← data.pyGetD "updated_at" .null)
  pure ⟨id, name, platform, enabled, url, thumbnail_url, description,
    followers_count, created_at, updated_at⟩

/-- `RestreamClient._convert_event_data`.  Only `data["id"]` is a
subscript. -/
def _convert_event_data (data : Json) : Except PyErr StreamEvent := do
  let id ← data.pySubscript "id"
  let title ← data.pyGetD "title" (.str "")
  let status ← data.pyGetD "status" (.str "")
  let type ← data.pyGetD "type" (.str "")
  let start_time ← _parse_datetime (← data.pyGetD "start_time" .null)
  let end_time ← _parse_datetime (← data.pyGetD "end_time" .null)
  let duration ← data.pyGetD "duration" .null
  let viewer_count ← data.pyGetD "viewer_count" .null
  let peak_viewers ← data.pyGetD "peak_viewers" .null
  let created_at ← _parse_datetime (← data.pyGetD "created_at" .null)
  let updated_at ← _parse_datetime (← data.pyGetD "updated_at" .null)
  pure ⟨id, title, status, type, start_time, end_time, duration,
    viewer_count, peak_viewers, created_at, updated_at⟩

/-- A Python list comprehension `[f(item) for item in items]`: the
first raised exception aborts the whole comprehension. -/
def mapEx (f : Json → Except PyErr α) : List Json → Except PyErr (List α)
  | [] => .ok []
  | x :: xs =>
    match f x with
    | .error e => .error e
    | .ok y =>
      match mapEx f xs with
      | .error e => .error e
      | .ok ys => .ok (y :: ys)

/-! ### Listing and profile operations

The surrounding HTTP call (`_make_request`) is abstracted: each
operation takes the decoded JSON body that `_make_request` returned. -/

/-- `RestreamClient.list_channels`, given the decoded response body:
a bare array converts element-wise; a dict containing `"channels"`
yields a `ChannelList` with `total` defaulting to the element count;
anything else falls back to an empty bare list. -/
def list_channels (data : Json) : Except PyErr ChannelsResult :=
  match data with
  | .arr items => (mapEx _convert_channel_data items).map ChannelsResult.bare
  | .obj fs =>
    match jlookup fs "channels" with
    | some coll =>
      match coll.iterList with
      | .error e => .error e
      | .ok items =>
        match mapEx _convert_channel_data items with
        | .error e => .error e
        | .ok channels =>
          .ok (.paginated ⟨channels, (jlookup fs "total").getD (.num channels.length)⟩)
    | none => .ok (.bare [])
  | _ => .ok (.bare [])

/-- `RestreamClient.list_events`, given the decoded response body:
like `list_channels`, with `page` defaulting to 1 and `per_page` to 20
in the paginated shape. -/
def list_events (data : Json) : Except PyErr EventsResult :=
  match data with
  | .arr items => (mapEx _convert_event_data items).map EventsResult.bare
  | .obj fs =>
    match jlookup fs "events" with
    | some coll =>
      match coll.iterList with
      | .error e => .error e
      | .ok items =>
        match mapEx _convert_event_data items with
        | .error e => .error e
        | .ok events =>
          .ok (.paginated ⟨events,
            (jlookup fs "total").getD (.num events.length),
            (jlookup fs "page").getD (.num 1),
            (jlookup fs "per_page").getD (.num 20)⟩)
    | none => .ok (.bare [])
  | _ => .ok (.bare [])

/-- `RestreamClient.get_profile`, given the decoded response body:
user fields come from `data["user"]` when that key is present, else
from `data` itself; profile-level fields always come from `data`. -/
def get_profile (data : Json) : Except PyErr Profile := do
  let hasUser ← data.pyIn "user"
  let user_data ← if hasUser then data.pySubscript "user" else pure data
  let user ← _convert_user_data user_data
  let subscription_plan ← data.pyGetD "subscription_plan" .null
  let streaming_quota ← data.pyGetD "streaming_quota" .null
  let features ← data.pyGetD "features" .null
  pure ⟨user, subscription_plan, streaming_quota, features⟩

/-- `RestreamClient.get_channel`, given the decoded response body. -/
def get_channel (data : Json) : Except PyErr Channel :=
  _convert_channel_data data

/-! ### Token refresh and session acquisition

`_refresh_token` posts to the OAuth token endpoint; the endpoint's
behaviour is an input (`HttpOutcome`), and the `save_tokens` write is
returned as data (`saved`), together with the number of network calls
issued. -/

/-- Outcome of the `requests.post` to the token endpoint: a raised
`requests.RequestException`, or a response with its status code and
decoded JSON body (`response.ok` is `status < 400`). -/
inductive HttpOutcome where
  | exn (msg : String)
  | response (status : Nat) (body : Json)

/-- External configuration read by `_refresh_token`. -/
structure RefreshEnv where
  clientId : Option String
  clientSecret : Option String
  http : HttpOutcome

/-- `if not client_id`: unset or empty environment variable. -/
def clientIdTruthy : Option String → Bool
  | some c => c != ""
  | none => false

/-- Result of `_refresh_token`: the returned access token or the
raised exception, the payload written by `save_tokens` (if reached),
and the number of HTTP requests issued. -/
structure RefreshOut where
  result : Except PyErr Json
  saved : Option Json
  networkCalls : Nat
deriving Repr

/-- `RestreamClient._refresh_token`.  Note the order on the success
path: `save_tokens(token_response)` runs before
`token_response["access_token"]` is read, so the store is overwritten
even when the lookup then fails; `AuthenticationError` raised inside
the `try` block is not caught (the `except` clause only catches
`requests.RequestException`). -/
def _refresh_token (env : RefreshEnv) (refresh_token : Json) : RefreshOut :=
  if !clientIdTruthy env.clientId then
    ⟨.error (.authenticationError "RESTREAM_CLIENT_ID environment variable not set"),
      none, 0⟩
  else
    match env.http with
    | .exn m =>
      ⟨.error (.authenticationError ("Network error during token refresh: " ++ m)),
        none, 1⟩
    | .response status body =>
      if status ≥ 400 then
        ⟨.error (.authenticationError ("Token refresh failed: " ++ toString status)),
          none, 1⟩
      else
        match body.pySubscript "access_token" with
        | .ok tok => ⟨.ok tok, some body, 1⟩
        | .error e => ⟨.error e, some body, 1⟩

/-- Environment of `RestreamClient.from_config`: the stored token file
(`load_tokens`, `None` when the file does not exist), the wall clock,
and the refresh collaborators. -/
structure AcquireEnv where
  tokens : Option Json
  now : Int
  refresh : RefreshEnv

/-- Result of `from_config`: the bearer token of the constructed
client (a `RestreamClient` is determined by its token) or the raised
exception, plus the side effects of any refresh performed. -/
structure AcquireOut where
  result : Except PyErr Json
  saved : Option Json
  refreshCalls : Nat
  networkCalls : Nat
deriving Repr

/-- `RestreamClient.from_config`.  `if not tokens` treats both a
missing file and a falsy (empty) token object as absent; the expiry
check `if expires_at and time.time() >= expires_at` first requires
`expires_at` to be truthy, and the comparison requires a numeric
value. -/
def from_config (env : AcquireEnv) : AcquireOut :=
  let noTokens : AcquireOut :=
    ⟨.error (.authenticationError
        "No stored tokens found. Please run 'restream.io login' first."),
      none, 0, 0⟩
  match env.tokens with
  | none => noTokens
  | some tokens =>
    if !tokens.truthy then noTokens
    else
      match tokens.pyGetD "access_token" .null with
      | .error e => ⟨.error e, none, 0, 0⟩
      | .ok access_token =>
        if !access_token.truthy then
          ⟨.error (.authenticationError "No access token found in stored tokens."),
            none, 0, 0⟩
        else
          match tokens.pyGetD "expires_at" .null with
          | .error e => ⟨.error e, none, 0, 0⟩
          | .ok expires_at =>
            if expires_at.truthy then
              match expires_at.asPyNumber with
              | none => ⟨.error .typeError, none, 0, 0⟩
              | some exp =>
                if env.now ≥ exp then
                  match tokens.pyGetD "refresh_token" .null with
                  | .error e => ⟨.error e, none, 0, 0⟩
                  | .ok refresh_token =>
                    if refresh_token.truthy then
                      let r := _refresh_token env.refresh refresh_token
                      ⟨r.result, r.saved, 1, r.networkCalls⟩
                    else
                      ⟨.error (.authenticationError
                          "Access token expired and no refresh token available. Please re-login."),
                        none, 0, 0⟩
                else ⟨.ok access_token, none, 0, 0⟩
            else ⟨.ok access_token, none, 0, 0⟩

/-! ### Transient retry policy

Modelled from the spec: `restream_io.utils.retry_on_transient_error`
is imported and applied by `api.py` (`@retry_on_transient_error(max_retries=3)`
on `get_profile`, `list_channels`, `get_channel`, `list_events`) but
`utils.py` itself is not among the sources; the classifier and the
retry loop below follow the spec's description: at most 3 attempts
total, re-invoking only on transient failures (network-transport
failures and a subset of HTTP statuses such as 429/5xx), a
non-transient failure propagating immediately, and the last error
propagating unchanged after the cap. -/

/-- An `APIError`-shaped failure of one attempt of a data call:
`status = none` is a network-transport failure. -/
structure ApiFailure where
  status : Option Nat
  msg : String
deriving DecidableEq, Repr

/-- Modelled from the spec: the transient classifier — network errors
and HTTP 429/5xx are transient. -/
def isTransient (e : ApiFailure) : Bool :=
  match e.status with
  | none => true
  | some s => s == 429 || (500 ≤ s && s < 600)

/-- Outcome of one attempt of a wrapped call: the decoded JSON body on
success, or an `ApiFailure`. -/
inductive CallOutcome where
  | success (body : Json)
  | failure (e : ApiFailure)

/-- Modelled from the spec: the retry loop.  `attempts k` is the
outcome of the (k+1)-th invocation; the loop returns the final outcome
together with the number of attempts actually made. -/
def retryGo (attempts : Nat → CallOutcome) : Nat → Nat → CallOutcome × Nat
  | i, 0 => (attempts i, i + 1)
  | i, remaining + 1 =>
    match attempts i with
    | .success v => (.success v, i + 1)
    | .failure e =>
      if isTransient e then retryGo attempts (i + 1) remaining
      else (.failure e, i + 1)

/-- Modelled from the spec: `retry_on_transient_error(max_retries=n)`
applied to a call whose successive attempts are given by `attempts`. -/
def retry_on_transient_error (maxRetries : Nat) (attempts : Nat → CallOutcome) :
    CallOutcome × Nat :=
  retryGo attempts 0 (maxRetries - 1)

/-- A data operation as exported by `api.py`: the bounded retry around
the HTTP call, then the response normalizer applied to the successful
body.  A final failure surfaces as `APIError`. -/
def retriedOp (normalize : Json → Except PyErr α) (attempts : Nat → CallOutcome) :
    Except PyErr α × Nat :=
  match retry_on_transient_error 3 attempts with
  | (.success body, n) => (normalize body, n)
  | (.failure e, n) => (.error (.apiError e.status e.msg), n)

/-- `get_profile` with its `@retry_on_transient_error(max_retries=3)`. -/
def get_profile_op (attempts : Nat → CallOutcome) : Except PyErr Profile × Nat :=
  retriedOp get_profile attempts

/-- `list_channels` with its retry decorator. -/
def list_channels_op (attempts : Nat → CallOutcome) :
    Except PyErr ChannelsResult × Nat :=
  retriedOp list_channels attempts

/-- `get_channel` with its retry decorator. -/
def get_channel_op (attempts : Nat → CallOutcome) : Except PyErr Channel × Nat :=
  retriedOp get_channel attempts

/-- `list_events` with its retry decorator. -/
def list_events_op (attempts : Nat → CallOutcome) : Except PyErr EventsResult × Nat :=
  retriedOp list_events attempts

/-! ## Helper lemmas -/

theorem exbind_ok {α β : Type} (a : α) (f : α → Except PyErr β) :
    (Except.ok a : Except PyErr α) >>= f = f a := rfl

theorem exbind_error {α β : Type} (e : PyErr) (f : α → Except PyErr β) :
    (Except.error e : Except PyErr α) >>= f = .error e := rfl

theorem exmap_ok {α β : Type} (a : α) (f : α → β) :
    f <$> (Except.ok a : Except PyErr α) = .ok (f a) := rfl

theorem exmap_error {α β : Type} (e : PyErr) (f : α → β) :
    f <$> (Except.error e : Except PyErr α) = .error e := rfl

theorem mapEx_ok_length {α : Type} {f : Json → Except PyErr α} {items : List Json}
    {cs : List α} (h : mapEx f items = .ok cs) : cs.length = items.length := by
  induction items generalizing cs with
  | nil =>
    simp only [mapEx] at h
    cases h
    rfl
  | cons x xs ih =>
    simp only [mapEx] at h
    split at h
    · exact absurd h (by simp)
    · split at h
      · exact absurd h (by simp)
      · rename_i y _ ys hxs
        cases h
        simp [ih hxs]

theorem mapEx_ok_get {α : Type} {f : Json → Except PyErr α} {items : List Json}
    {cs : List α} (h : mapEx f items = .ok cs) :
    ∀ i (h1 : i < items.length) (h2 : i < cs.length),
      f (items.get ⟨i, h1⟩) = .ok (cs.get ⟨i, h2⟩) := by
  induction items generalizing cs with
  | nil => intro i h1 _; exact absurd h1 (by simp)
  | cons x xs ih =>
    simp only [mapEx] at h
    split at h
    · exact absurd h (by simp)
    · rename_i y hfx
      split at h
      · exact absurd h (by simp)
      · rename_i ys hxs
        cases h
        intro i h1 h2
        cases i with
        | zero => simpa using hfx
        | succ j =>
          exact ih hxs j (by simpa using h1) (by simpa using h2)

/-! ## Claims -/

/-- C1: for every raw listing response that is a mapping containing the
named collection key (`"channels"` / `"events"`) holding an array of
convertible elements, the result is a paginated record whose items are
the converted elements in order, whose `total` equals the raw `"total"`
when present and the element count otherwise, and, for events only,
whose `page` defaults to 1 and `per_page` defaults to 20 when absent. -/
theorem C1_paginated_listing
    (chFields : List (String × Json)) (chItems : List Json) (cs : List Channel)
    (evFields : List (String × Json)) (evItems : List Json) (es : List StreamEvent)
    (hch : jlookup chFields "channels" = some (.arr chItems))
    (hconvch : mapEx _convert_channel_data chItems = .ok cs)
    (hev : jlookup evFields "events" = some (.arr evItems))
    (hconvev : mapEx _convert_event_data evItems = .ok es) :
    list_channels (.obj chFields) =
      .ok (.paginated ⟨cs, (jlookup chFields "total").getD (.num cs.length)⟩) ∧
    list_events (.obj evFields) =
      .ok (.paginated ⟨es,
        (jlookup evFields "total").getD (.num es.length),
        (jlookup evFields "page").getD (.num 1),
        (jlookup evFields "per_page").getD (.num 20)⟩) ∧
    cs.length = chItems.length ∧ es.length = evItems.length ∧
    (∀ i (h1 : i < chItems.length) (h2 : i < cs.length),
      _convert_channel_data (chItems.get ⟨i, h1⟩) = .ok (cs.get ⟨i, h2⟩)) ∧
    (∀ i (h1 : i < evItems.length) (h2 : i < es.length),
      _convert_event_data (evItems.get ⟨i, h1⟩) = .ok (es.get ⟨i, h2⟩)) := by
  refine ⟨?_, ?_, mapEx_ok_length hconvch, mapEx_ok_length hconvev,
    mapEx_ok_get hconvch, mapEx_ok_get hconvev⟩
  · simp [list_channels, hch, Json.iterList, hconvch]
  · simp [list_events, hev, Json.iterList, hconvev]

/-- Witness for C1 at a concrete paginated channels payload (with a raw
`"total"`) and a concrete paginated events payload (without `total`,
`page`, `per_page`, exercising the defaults). -/
theorem C1_paginated_listing_witness :
    list_channels (.obj [("channels", .arr [.obj [("id", .str "a"), ("name", .str "b")]]),
        ("total", .num 7)]) =
      .ok (.paginated ⟨[⟨.str "a", .str "b", .str "", .bool true, .null, .null, .null,
        .null, none, none⟩], .num 7⟩) ∧
    list_events (.obj [("events", .arr [.obj [("id", .str "e1")]])]) =
      .ok (.paginated ⟨[⟨.str "e1", .str "", .str "", .str "", none, none, .null, .null,
        .null, none, none⟩], .num 1, .num 1, .num 20⟩) :=
  ⟨(C1_paginated_listing
      [("channels", .arr [.obj [("id", .str "a"), ("name", .str "b")]]), ("total", .num 7)]
      [.obj [("id", .str "a"), ("name", .str "b")]]
      [⟨.str "a", .str "b", .str "", .bool true, .null, .null, .null, .null, none, none⟩]
      [("events", .arr [.obj [("id", .str "e1")]])]
      [.obj [("id", .str "e1")]]
      [⟨.str "e1", .str "", .str "", .str "", none, none, .null, .null, .null, none, none⟩]
      rfl rfl rfl rfl).1,
   (C1_paginated_listing
      [("channels", .arr [.obj [("id", .str "a"), ("name", .str "b")]]), ("total", .num 7)]
      [.obj [("id", .str "a"), ("name", .str "b")]]
      [⟨.str "a", .str "b", .str "", .bool true, .null, .null, .null, .null, none, none⟩]
      [("events", .arr [.obj [("id", .str "e1")]])]
      [.obj [("id", .str "e1")]]
      [⟨.str "e1", .str "", .str "", .str "", none, none, .null, .null, .null, none, none⟩]
      rfl rfl rfl rfl).2.1⟩

/-- C2: for every raw listing response that is itself a JSON array of
convertible elements, `list_channels` and `list_events` return a bare
ordered sequence of the same length whose i-th element is the per-item
conversion of the i-th raw element, with no pagination metadata. -/
theorem C2_bare_array_listing
    (chItems : List Json) (cs : List Channel)
    (evItems : List Json) (es : List StreamEvent)
    (hch : mapEx _convert_channel_data chItems = .ok cs)
    (hev : mapEx _convert_event_data evItems = .ok es) :
    list_channels (.arr chItems) = .ok (.bare cs) ∧
    list_events (.arr evItems) = .ok (.bare es) ∧
    cs.length = chItems.length ∧ es.length = evItems.length ∧
    (∀ i (h1 : i < chItems.length) (h2 : i < cs.length),
      _convert_channel_data (chItems.get ⟨i, h1⟩) = .ok (cs.get ⟨i, h2⟩)) ∧
    (∀ i (h1 : i < evItems.length) (h2 : i < es.length),
      _convert_event_data (evItems.get ⟨i, h1⟩) = .ok (es.get ⟨i, h2⟩)) := by
  refine ⟨?_, ?_, mapEx_ok_length hch, mapEx_ok_length hev,
    mapEx_ok_get hch, mapEx_ok_get hev⟩
  · simp [list_channels, hch, Except.map]
  · simp [list_events, hev, Except.map]

/-- Witness for C2 at concrete one-element array payloads. -/
theorem C2_bare_array_listing_witness :
    list_channels (.arr [.obj [("id", .str "a"), ("name", .str "b")]]) =
      .ok (.bare [⟨.str "a", .str "b", .str "", .bool true, .null, .null, .null, .null,
        none, none⟩]) ∧
    list_events (.arr [.obj [("id", .str "e1")]]) =
      .ok (.bare [⟨.str "e1", .str "", .str "", .str "", none, none, .null, .null, .null,
        none, none⟩]) :=
  ⟨(C2_bare_array_listing
      [.obj [("id", .str "a"), ("name", .str "b")]]
      [⟨.str "a", .str "b", .str "", .bool true, .null, .null, .null, .null, none, none⟩]
      [.obj [("id", .str "e1")]]
      [⟨.str "e1", .str "", .str "", .str "", none, none, .null, .null, .null, none, none⟩]
      rfl rfl).1,
   (C2_bare_array_listing
      [.obj [("id", .str "a"), ("name", .str "b")]]
      [⟨.str "a", .str "b", .str "", .bool true, .null, .null, .null, .null, none, none⟩]
      [.obj [("id", .str "e1")]]
      [⟨.str "e1", .str "", .str "", .str "", none, none, .null, .null, .null, none, none⟩]
      rfl rfl).2.1⟩

/-- C9: for every raw listing response that is neither a JSON array nor
a mapping containing the recognized collection key, `list_channels` and
`list_events` return an empty bare sequence and never raise. -/
theorem C9_unrecognized_shape_empty (data : Json)
    (hnotarr : ∀ xs, data ≠ .arr xs)
    (hch : data.objFind "channels" = none)
    (hev : data.objFind "events" = none) :
    list_channels data = .ok (.bare []) ∧ list_events data = .ok (.bare []) := by
  cases data with
  | arr xs => exact absurd rfl (hnotarr xs)
  | obj fs =>
    simp only [Json.objFind] at hch hev
    simp [list_channels, list_events, hch, hev]
  | null => exact ⟨rfl, rfl⟩
  | bool b => exact ⟨rfl, rfl⟩
  | num n => exact ⟨rfl, rfl⟩
  | str s => exact ⟨rfl, rfl⟩

/-- Witness for C9 at a mapping with neither collection key. -/
theorem C9_unrecognized_shape_empty_witness :
    list_channels (.obj [("data", .arr [])]) = .ok (.bare []) ∧
    list_events (.obj [("data", .arr [])]) = .ok (.bare []) :=
  C9_unrecognized_shape_empty (.obj [("data", .arr [])])
    (fun _ h => Json.noConfusion h) rfl rfl

/-- C6: timestamp conversion rewrites a trailing `Z` to `+00:00` before
the ISO-8601 parse, so `"2024-01-20T09:00:00Z"` and
`"2024-01-20T09:00:00+00:00"` parse to the identical instant, and any
string the parser rejects yields absent rather than an error. -/
theorem C6_datetime_parsing :
    _parse_datetime (.str "2024-01-20T09:00:00Z") =
      _parse_datetime (.str "2024-01-20T09:00:00+00:00") ∧
    _parse_datetime (.str "2024-01-20T09:00:00Z") =
      .ok (some ⟨2024, 1, 20, 9, 0, 0, 0, some 0⟩) ∧
    (∀ s : String, endsWithZ s = true →
      _parse_datetime (.str s) = .ok (fromisoformat (zRewrite s))) ∧
    (∀ s : String, s ≠ "" →
      fromisoformat (if endsWithZ s then zRewrite s else s) = none →
      _parse_datetime (.str s) = .ok none) ∧
    _parse_datetime (.str "invalid") = .ok none := by
  refine ⟨rfl, rfl, ?_, ?_, rfl⟩
  · intro s hz
    have hne : s ≠ "" := by
      intro h
      rw [h] at hz
      exact absurd hz (by decide)
    simp [_parse_datetime, Json.truthy, hne, hz]
  · intro s hne hnone
    simp [_parse_datetime, Json.truthy, hne, hnone]

/-- Witness for C6's conditional parts at `"2024-01-20T09:00:00Z"` and
`"invalid"`. -/
theorem C6_datetime_parsing_witness :
    _parse_datetime (.str "2024-01-20T09:00:00Z") =
      .ok (fromisoformat (zRewrite "2024-01-20T09:00:00Z")) ∧
    _parse_datetime (.str "invalid") = .ok none :=
  ⟨C6_datetime_parsing.2.2.1 "2024-01-20T09:00:00Z" rfl,
   C6_datetime_parsing.2.2.2.1 "invalid" (by decide) rfl⟩

theorem from_config_expired
    (tokens : List (String × Json)) (now : Int) (renv : RefreshEnv)
    (accessTok : Json) (e : Int)
    (hacc : jlookup tokens "access_token" = some accessTok)
    (hacct : accessTok.truthy = true)
    (hexp : jlookup tokens "expires_at" = some (.num e))
    (henz : e ≠ 0) (hpassed : now ≥ e) :
    from_config ⟨some (.obj tokens), now, renv⟩ =
      (if ((jlookup tokens "refresh_token").getD .null).truthy then
        let r := _refresh_token renv ((jlookup tokens "refresh_token").getD .null)
        ⟨r.result, r.saved, 1, r.networkCalls⟩
      else
        ⟨.error (.authenticationError
            "Access token expired and no refresh token available. Please re-login."),
          none, 0, 0⟩) := by
  have hne : tokens ≠ [] := by
    intro h
    rw [h] at hacc
    exact absurd hacc (by simp [jlookup])
  have htr : (Json.obj tokens).truthy = true := by
    cases tokens with
    | nil => exact absurd rfl hne
    | cons a l => rfl
  have het : (Json.num e).truthy = true := by
    simp [Json.truthy, henz]
  simp [from_config, Json.pyGetD, hacc, hacct, hexp, htr, het,
    Json.asPyNumber, hpassed]

/-- C3 as stated is false on the code: `expires_at = 0` is present and
has passed at `now = 100`, and a refresh token is present, yet
`from_config` performs no refresh call and returns the stale access
token, because the guard `if expires_at and time.time() >= expires_at`
treats a falsy (zero) expiry as absent. -/
theorem C3_counterexample :
    from_config ⟨some (.obj [("access_token", .str "old"), ("refresh_token", .str "r"),
        ("expires_at", .num 0)]), 100,
      ⟨some "cid", none, .response 200 (.obj [("access_token", .str "new")])⟩⟩ =
      ⟨.ok (.str "old"), none, 0, 0⟩ := rfl

/-- C3 (amended): for every stored token set holding a truthy access
token whose `expires_at` is present, nonzero and has passed
(`now >= expires_at`): with a truthy `refresh_token` present,
`from_config` performs exactly one refresh call and the returned
session presents the refreshed access token; with the refresh token
absent or falsy, it fails with `AuthenticationError` and issues no
network call.  Additionally it fails with `AuthenticationError` when no
token set exists or the token set has no access token. -/
theorem C3_token_lifecycle
    (tokens : List (String × Json)) (now : Int) (renv : RefreshEnv)
    (accessTok : Json) (e : Int)
    (hacc : jlookup tokens "access_token" = some accessTok)
    (hacct : accessTok.truthy = true)
    (hexp : jlookup tokens "expires_at" = some (.num e))
    (henz : e ≠ 0) (hpassed : now ≥ e) :
    (∀ rt, jlookup tokens "refresh_token" = some rt → rt.truthy = true →
      (from_config ⟨some (.obj tokens), now, renv⟩).refreshCalls = 1 ∧
      ∀ tok, (_refresh_token renv rt).result = .ok tok →
        (from_config ⟨some (.obj tokens), now, renv⟩).result = .ok tok) ∧
    (((jlookup tokens "refresh_token").getD .null).truthy = false →
      from_config ⟨some (.obj tokens), now, renv⟩ =
        ⟨.error (.authenticationError
            "Access token expired and no refresh token available. Please re-login."),
          none, 0, 0⟩) ∧
    (from_config ⟨none, now, renv⟩).result =
      .error (.authenticationError
        "No stored tokens found. Please run 'restream.io login' first.") ∧
    (∀ fs : List (String × Json), jlookup fs "access_token" = none →
      ∃ m, (from_config ⟨some (.obj fs), now, renv⟩).result =
        .error (.authenticationError m)) := by
  refine ⟨?_, ?_, rfl, ?_⟩
  · intro rt hrt hrtt
    rw [from_config_expired tokens now renv accessTok e hacc hacct hexp henz hpassed]
    rw [hrt]
    simp only [Option.getD_some]
    refine ⟨by simp [hrtt], fun tok htok => ?_⟩
    simp [hrtt, htok]
  · intro hrtf
    rw [from_config_expired tokens now renv accessTok e hacc hacct hexp henz hpassed]
    simp [hrtf]
  · intro fs hnone
    by_cases hfs : fs = []
    · subst hfs
      exact ⟨"No stored tokens found. Please run 'restream.io login' first.", rfl⟩
    · refine ⟨"No access token found in stored tokens.", ?_⟩
      have hfe : fs.isEmpty = false := by
        cases fs with
        | nil => exact absurd rfl hfs
        | cons a l => rfl
      simp [from_config, Json.pyGetD, hnone, hfe, Json.truthy]

/-- Witness for C3 (amended): a concrete expired token set that
refreshes (one refresh call, new token presented), one with no refresh
token (authentication failure, no network call), a missing token file,
and a token set without an access token. -/
theorem C3_token_lifecycle_witness :
    (from_config ⟨some (.obj [("access_token", .str "old"), ("refresh_token", .str "r"),
        ("expires_at", .num 50)]), 100,
      ⟨some "cid", none, .response 200 (.obj [("access_token", .str "new")])⟩⟩).refreshCalls
      = 1 ∧
    (from_config ⟨some (.obj [("access_token", .str "old"), ("refresh_token", .str "r"),
        ("expires_at", .num 50)]), 100,
      ⟨some "cid", none, .response 200 (.obj [("access_token", .str "new")])⟩⟩).result
      = .ok (.str "new") ∧
    from_config ⟨some (.obj [("access_token", .str "old"), ("expires_at", .num 50)]), 100,
      ⟨some "cid", none, .response 200 (.obj [("access_token", .str "new")])⟩⟩ =
      ⟨.error (.authenticationError
          "Access token expired and no refresh token available. Please re-login."),
        none, 0, 0⟩ ∧
    (from_config ⟨none, 100,
      ⟨some "cid", none, .response 200 (.obj [("access_token", .str "new")])⟩⟩).result =
      .error (.authenticationError
        "No stored tokens found. Please run 'restream.io login' first.") ∧
    ∃ m, (from_config ⟨some (.obj [("refresh_token", .str "r")]), 100,
      ⟨some "cid", none, .response 200 (.obj [("access_token", .str "new")])⟩⟩).result =
      .error (.authenticationError m) :=
  have h := C3_token_lifecycle
    [("access_token", .str "old"), ("refresh_token", .str "r"), ("expires_at", .num 50)]
    100 ⟨some "cid", none, .response 200 (.obj [("access_token", .str "new")])⟩
    (.str "old") 50 rfl rfl rfl (by decide) (by decide)
  have h2 := C3_token_lifecycle
    [("access_token", .str "old"), ("expires_at", .num 50)]
    100 ⟨some "cid", none, .response 200 (.obj [("access_token", .str "new")])⟩
    (.str "old") 50 rfl rfl rfl (by decide) (by decide)
  ⟨(h.1 (.str "r") rfl rfl).1,
   (h.1 (.str "r") rfl rfl).2 (.str "new") rfl,
   h2.2.1 rfl,
   h2.2.2.1,
   h2.2.2.2 [("refresh_token", .str "r")] rfl⟩

/-- C4: `_refresh_token` fails with `AuthenticationError` when the
configured client identifier is absent (no request issued); fails with
`AuthenticationError` carrying the HTTP status code on a non-success
token-endpoint response; fails with `AuthenticationError` wrapping the
transport error on network failure; and on success persists the full
returned token payload to the store (overwriting the previous token
set) and returns the new access token. -/
theorem C4_refresh_protocol (renv : RefreshEnv) (rt : Json) :
    (clientIdTruthy renv.clientId = false →
      _refresh_token renv rt =
        ⟨.error (.authenticationError "RESTREAM_CLIENT_ID environment variable not set"),
          none, 0⟩) ∧
    (clientIdTruthy renv.clientId = true → ∀ m, renv.http = .exn m →
      _refresh_token renv rt =
        ⟨.error (.authenticationError ("Network error during token refresh: " ++ m)),
          none, 1⟩) ∧
    (clientIdTruthy renv.clientId = true → ∀ s b, renv.http = .response s b → s ≥ 400 →
      _refresh_token renv rt =
        ⟨.error (.authenticationError ("Token refresh failed: " ++ toString s)),
          none, 1⟩) ∧
    (clientIdTruthy renv.clientId = true → ∀ s b tok, renv.http = .response s b →
      s < 400 → b.pySubscript "access_token" = .ok tok →
      _refresh_token renv rt = ⟨.ok tok, some b, 1⟩) := by
  refine ⟨?_, ?_, ?_, ?_⟩
  · intro hcid
    simp [_refresh_token, hcid]
  · intro hcid m hm
    simp [_refresh_token, hcid, hm]
  · intro hcid s b hsb hs
    simp [_refresh_token, hcid, hsb, hs]
  · intro hcid s b tok hsb hs htok
    simp [_refresh_token, hcid, hsb, Nat.not_le.mpr hs, htok]

/-- Witness for C4 at concrete environments covering its four cases. -/
theorem C4_refresh_protocol_witness :
    _refresh_token ⟨none, none, .response 200 (.obj [])⟩ (.str "r") =
      ⟨.error (.authenticationError "RESTREAM_CLIENT_ID environment variable not set"),
        none, 0⟩ ∧
    _refresh_token ⟨some "cid", none, .exn "timeout"⟩ (.str "r") =
      ⟨.error (.authenticationError "Network error during token refresh: timeout"),
        none, 1⟩ ∧
    _refresh_token ⟨some "cid", none, .response 401 (.obj [])⟩ (.str "r") =
      ⟨.error (.authenticationError "Token refresh failed: 401"), none, 1⟩ ∧
    _refresh_token ⟨some "cid", none,
        .response 200 (.obj [("access_token", .str "new"), ("refresh_token", .str "r2")])⟩
        (.str "r") =
      ⟨.ok (.str "new"),
        some (.obj [("access_token", .str "new"), ("refresh_token", .str "r2")]), 1⟩ :=
  ⟨(C4_refresh_protocol ⟨none, none, .response 200 (.obj [])⟩ (.str "r")).1 rfl,
   (C4_refresh_protocol ⟨some "cid", none, .exn "timeout"⟩ (.str "r")).2.1 rfl
     "timeout" rfl,
   (C4_refresh_protocol ⟨some "cid", none, .response 401 (.obj [])⟩ (.str "r")).2.2.1 rfl
     401 (.obj []) rfl (by decide),
   (C4_refresh_protocol ⟨some "cid", none,
       .response 200 (.obj [("access_token", .str "new"), ("refresh_token", .str "r2")])⟩
       (.str "r")).2.2.2 rfl 200
     (.obj [("access_token", .str "new"), ("refresh_token", .str "r2")])
     (.str "new") rfl (by decide) rfl⟩

/-- C10: when the token endpoint returns an HTTP-success response whose
JSON object lacks `"access_token"`, `_refresh_token` has already
persisted that payload (overwriting the previously stored, usable
token set) before the failure surfaces, and the failure is an untyped
lookup error (`KeyError`), not an `AuthenticationError`: the stored
token state is not left unchanged on this error path. -/
theorem C10_refresh_persists_before_lookup
    (renv : RefreshEnv) (rt : Json) (s : Nat) (fields : List (String × Json))
    (hcid : clientIdTruthy renv.clientId = true)
    (hsb : renv.http = .response s (.obj fields)) (hs : s < 400)
    (hmiss : jlookup fields "access_token" = none) :
    _refresh_token renv rt = ⟨.error (.keyError "access_token"), some (.obj fields), 1⟩ := by
  simp [_refresh_token, hcid, hsb, Nat.not_le.mpr hs, Json.pySubscript, hmiss]

/-- Witness for C10 at a concrete HTTP-success payload without an
access token. -/
theorem C10_refresh_persists_before_lookup_witness :
    _refresh_token ⟨some "cid", none, .response 200 (.obj [("token_type", .str "Bearer")])⟩
        (.str "r") =
      ⟨.error (.keyError "access_token"), some (.obj [("token_type", .str "Bearer")]), 1⟩ :=
  C10_refresh_persists_before_lookup
    ⟨some "cid", none, .response 200 (.obj [("token_type", .str "Bearer")])⟩
    (.str "r") 200 [("token_type", .str "Bearer")] rfl rfl (by decide) rfl

/-- C7 as stated is false on the code: in the raw channel object
`{"id": "x"}` the required identity field `id` is present, yet
`_convert_channel_data` raises — `name=data["name"]` is also a
subscript, so the missing `name` is a `KeyError` instead of mapping to
a default. -/
theorem C7_counterexample :
    _convert_channel_data (.obj [("id", .str "x")]) = .error (.keyError "name") := rfl

/-- C7 (amended): per-item conversion of a raw channel or event object
raises an unrecoverable error when a required field is absent — `id`
for events, and for channels both `id` (checked first) and `name`;
every other field missing from the raw object maps to its declared
absent/default value — in particular a `Channel` built from the
minimal payload `{"id": "ch_min", "name": "M", "platform": "p",
"enabled": true}` has `followers_count` absent and `thumbnail_url`
absent. -/
theorem C7_required_fields
    (fs : List (String × Json)) :
    (jlookup fs "id" = none →
      _convert_channel_data (.obj fs) = .error (.keyError "id") ∧
      _convert_event_data (.obj fs) = .error (.keyError "id")) ∧
    (∀ idv, jlookup fs "id" = some idv → jlookup fs "name" = none →
      _convert_channel_data (.obj fs) = .error (.keyError "name")) ∧
    (∀ idv nv, jlookup fs "id" = some idv → jlookup fs "name" = some nv →
      jlookup fs "created_at" = none → jlookup fs "updated_at" = none →
      _convert_channel_data (.obj fs) = .ok ⟨idv, nv,
        (jlookup fs "platform").getD (.str ""),
        (jlookup fs "enabled").getD (.bool true),
        (jlookup fs "url").getD .null,
        (jlookup fs "thumbnail_url").getD .null,
        (jlookup fs "description").getD .null,
        (jlookup fs "followers_count").getD .null, none, none⟩) ∧
    (∀ idv, jlookup fs "id" = some idv →
      jlookup fs "start_time" = none → jlookup fs "end_time" = none →
      jlookup fs "created_at" = none → jlookup fs "updated_at" = none →
      _convert_event_data (.obj fs) = .ok ⟨idv,
        (jlookup fs "title").getD (.str ""),
        (jlookup fs "status").getD (.str ""),
        (jlookup fs "type").getD (.str ""), none, none,
        (jlookup fs "duration").getD .null,
        (jlookup fs "viewer_count").getD .null,
        (jlookup fs "peak_viewers").getD .null, none, none⟩) ∧
    _convert_channel_data (.obj [("id", .str "ch_min"), ("name", .str "M"),
        ("platform", .str "p"), ("enabled", .bool true)]) =
      .ok ⟨.str "ch_min", .str "M", .str "p", .bool true, .null, .null, .null, .null,
        none, none⟩ := by
  refine ⟨?_, ?_, ?_, ?_, rfl⟩
  · intro hid
    constructor
    · simp [_convert_channel_data, Json.pySubscript, hid, exbind_error]
    · simp [_convert_event_data, Json.pySubscript, hid, exbind_error]
  · intro idv hid hname
    simp [_convert_channel_data, Json.pySubscript, Json.pyGetD, hid, hname,
      exbind_ok, exbind_error]
  · intro idv nv hid hname hca hua
    simp [_convert_channel_data, Json.pySubscript, Json.pyGetD, hid, hname, hca, hua,
      _parse_datetime, Json.truthy, exbind_ok, exmap_ok]
  · intro idv hid hst het hca hua
    simp [_convert_event_data, Json.pySubscript, Json.pyGetD, hid, hst, het, hca, hua,
      _parse_datetime, Json.truthy, exbind_ok, exmap_ok]

/-- Witness for C7 (amended) at concrete payloads: an object with no
`id`, a channel object with `id` but no `name`, a fully-defaulted
channel and event, and the minimal channel payload. -/
theorem C7_required_fields_witness :
    (_convert_channel_data (.obj [("name", .str "n")]) = .error (.keyError "id") ∧
      _convert_event_data (.obj [("name", .str "n")]) = .error (.keyError "id")) ∧
    _convert_channel_data (.obj [("id", .str "x")]) = .error (.keyError "name") ∧
    _convert_channel_data (.obj [("id", .str "c"), ("name", .str "n")]) =
      .ok ⟨.str "c", .str "n", .str "", .bool true, .null, .null, .null, .null,
        none, none⟩ ∧
    _convert_event_data (.obj [("id", .str "e")]) =
      .ok ⟨.str "e", .str "", .str "", .str "", none, none, .null, .null, .null,
        none, none⟩ :=
  ⟨(C7_required_fields [("name", .str "n")]).1 rfl,
   (C7_required_fields [("id", .str "x")]).2.1 (.str "x") rfl rfl,
   (C7_required_fields [("id", .str "c"), ("name", .str "n")]).2.2.1
     (.str "c") (.str "n") rfl rfl rfl rfl,
   (C7_required_fields [("id", .str "e")]).2.2.2.1 (.str "e") rfl rfl rfl rfl rfl⟩

/-- C8: a nested payload (`{"user": {...}}` plus outer profile fields)
and a flat payload (user fields at top level) describing the same
logical user — i.e. whose user-field conversions agree — produce equal
`User` objects from `get_profile`. -/
theorem C8_profile_merge
    (nf ff : List (String × Json)) (u : Json)
    (hn : jlookup nf "user" = some u)
    (hf : jlookup ff "user" = none)
    (hsame : _convert_user_data u = _convert_user_data (.obj ff)) :
    (get_profile (.obj nf)).map Profile.user = (get_profile (.obj ff)).map Profile.user := by
  have h1 : (Json.obj nf).pyIn "user" = .ok true := by simp [Json.pyIn, hn]
  have h2 : (Json.obj nf).pySubscript "user" = .ok u := by simp [Json.pySubscript, hn]
  have h3 : (Json.obj ff).pyIn "user" = .ok false := by simp [Json.pyIn, hf]
  cases hu : _convert_user_data u with
  | error e =>
    have hff : _convert_user_data (.obj ff) = .error e := by rw [← hsame, hu]
    simp [get_profile, h1, h2, h3, hu, hff, Except.map, exbind_ok, exbind_error]
  | ok user =>
    have hff : _convert_user_data (.obj ff) = .ok user := by rw [← hsame, hu]
    simp [get_profile, h1, h2, h3, hu, hff, Except.map, Json.pyGetD,
      exbind_ok, exbind_error, exmap_ok]

/-- Witness for C8 at the spec's example shapes: `{"id": 1, "user":
{...}}` against the flat `{"id": 1, ...}` payload. -/
theorem C8_profile_merge_witness :
    (get_profile (.obj [("user", .obj [("id", .num 1), ("username", .str "u")]),
        ("subscription_plan", .str "pro")])).map Profile.user =
    (get_profile (.obj [("id", .num 1), ("username", .str "u"),
        ("subscription_plan", .str "pro")])).map Profile.user :=
  C8_profile_merge
    [("user", .obj [("id", .num 1), ("username", .str "u")]),
      ("subscription_plan", .str "pro")]
    [("id", .num 1), ("username", .str "u"), ("subscription_plan", .str "pro")]
    (.obj [("id", .num 1), ("username", .str "u")]) rfl rfl rfl

theorem retryGo_count_le (attempts : Nat → CallOutcome) :
    ∀ r i, (retryGo attempts i r).2 ≤ i + r + 1 := by
  intro r
  induction r with
  | zero => intro i; simp [retryGo]
  | succ r ih =>
    intro i
    simp only [retryGo]
    cases attempts i with
    | success v => dsimp only; omega
    | failure e =>
      dsimp only
      split
      · exact (ih (i + 1)).trans (by omega)
      · dsimp only; omega

theorem retry3_two_transient_success (attempts : Nat → CallOutcome)
    (e0 e1 : ApiFailure) (v : Json)
    (h0 : attempts 0 = .failure e0) (ht0 : isTransient e0 = true)
    (h1 : attempts 1 = .failure e1) (ht1 : isTransient e1 = true)
    (h2 : attempts 2 = .success v) :
    retry_on_transient_error 3 attempts = (.success v, 3) := by
  simp [retry_on_transient_error, retryGo, h0, ht0, h1, ht1, h2]

theorem retry3_nontransient (attempts : Nat → CallOutcome) (e : ApiFailure)
    (h0 : attempts 0 = .failure e) (ht : isTransient e = false) :
    retry_on_transient_error 3 attempts = (.failure e, 1) := by
  simp [retry_on_transient_error, retryGo, h0, ht]

theorem retry3_exhausted (attempts : Nat → CallOutcome)
    (e0 e1 e2 : ApiFailure)
    (h0 : attempts 0 = .failure e0) (ht0 : isTransient e0 = true)
    (h1 : attempts 1 = .failure e1) (ht1 : isTransient e1 = true)
    (h2 : attempts 2 = .failure e2) :
    retry_on_transient_error 3 attempts = (.failure e2, 3) := by
  simp [retry_on_transient_error, retryGo, h0, ht0, h1, ht1, h2]

/-- C5 (spec-modelled retry combinator): each read-only data operation
(`get_profile`, `list_channels`, `get_channel`, `list_events`) is
wrapped in a bounded retry of at most 3 attempts total that re-invokes
the whole call only on transient failures (network-transport failures
and the transient status subset, 429/5xx); a non-transient failure
propagates immediately without a second attempt; after the attempt cap
the last error propagates unchanged; and a call that fails twice
transiently then succeeds returns the (normalized) successful
result. -/
theorem C5_retry_policy (attempts : Nat → CallOutcome) :
    (∀ e0 e1 v, attempts 0 = .failure e0 → isTransient e0 = true →
      attempts 1 = .failure e1 → isTransient e1 = true →
      attempts 2 = .success v →
      get_profile_op attempts = (get_profile v, 3) ∧
      list_channels_op attempts = (list_channels v, 3) ∧
      get_channel_op attempts = (get_channel v, 3) ∧
      list_events_op attempts = (list_events v, 3)) ∧
    (∀ e, attempts 0 = .failure e → isTransient e = false →
      get_profile_op attempts = (.error (.apiError e.status e.msg), 1) ∧
      list_channels_op attempts = (.error (.apiError e.status e.msg), 1) ∧
      get_channel_op attempts = (.error (.apiError e.status e.msg), 1) ∧
      list_events_op attempts = (.error (.apiError e.status e.msg), 1)) ∧
    (∀ e0 e1 e2, attempts 0 = .failure e0 → isTransient e0 = true →
      attempts 1 = .failure e1 → isTransient e1 = true →
      attempts 2 = .failure e2 →
      get_profile_op attempts = (.error (.apiError e2.status e2.msg), 3) ∧
      list_channels_op attempts = (.error (.apiError e2.status e2.msg), 3) ∧
      get_channel_op attempts = (.error (.apiError e2.status e2.msg), 3) ∧
      list_events_op attempts = (.error (.apiError e2.status e2.msg), 3)) ∧
    ((get_profile_op attempts).2 ≤ 3 ∧ (list_channels_op attempts).2 ≤ 3 ∧
      (get_channel_op attempts).2 ≤ 3 ∧ (list_events_op attempts).2 ≤ 3) := by
  have hb : (retry_on_transient_error 3 attempts).2 ≤ 3 := by
    have := retryGo_count_le attempts 2 0
    simpa [retry_on_transient_error] using this
  refine ⟨?_, ?_, ?_, ?_⟩
  · intro e0 e1 v h0 ht0 h1 ht1 h2
    have hr := retry3_two_transient_success attempts e0 e1 v h0 ht0 h1 ht1 h2
    exact ⟨by simp [get_profile_op, retriedOp, hr],
      by simp [list_channels_op, retriedOp, hr],
      by simp [get_channel_op, retriedOp, hr],
      by simp [list_events_op, retriedOp, hr]⟩
  · intro e h0 ht
    have hr := retry3_nontransient attempts e h0 ht
    exact ⟨by simp [get_profile_op, retriedOp, hr],
      by simp [list_channels_op, retriedOp, hr],
      by simp [get_channel_op, retriedOp, hr],
      by simp [list_events_op, retriedOp, hr]⟩
  · intro e0 e1 e2 h0 ht0 h1 ht1 h2
    have hr := retry3_exhausted attempts e0 e1 e2 h0 ht0 h1 ht1 h2
    exact ⟨by simp [get_profile_op, retriedOp, hr],
      by simp [list_channels_op, retriedOp, hr],
      by simp [get_channel_op, retriedOp, hr],
      by simp [list_events_op, retriedOp, hr]⟩
  · cases hr : retry_on_transient_error 3 attempts with
    | mk outcome n =>
      have hn : n ≤ 3 := by rw [hr] at hb; exact hb
      cases outcome with
      | success v =>
        exact ⟨by simp [get_profile_op, retriedOp, hr, hn],
          by simp [list_channels_op, retriedOp, hr, hn],
          by simp [get_channel_op, retriedOp, hr, hn],
          by simp [list_events_op, retriedOp, hr, hn]⟩
      | failure e =>
        exact ⟨by simp [get_profile_op, retriedOp, hr, hn],
          by simp [list_channels_op, retriedOp, hr, hn],
          by simp [get_channel_op, retriedOp, hr, hn],
          by simp [list_events_op, retriedOp, hr, hn]⟩

/-- Witness for C5: a call sequence failing with 503 then a network
error then succeeding returns the normalized result on the third
attempt, and a 404 failure propagates after the first attempt. -/
theorem C5_retry_policy_witness :
    list_channels_op (fun k => if k = 0 then .failure ⟨some 503, "s1"⟩
      else if k = 1 then .failure ⟨none, "s2"⟩ else .success (.arr [])) =
      (.ok (.bare []), 3) ∧
    list_events_op (fun _ => .failure ⟨some 404, "nf"⟩) =
      (.error (.apiError (some 404) "nf"), 1) :=
  ⟨((C5_retry_policy (fun k => if k = 0 then .failure ⟨some 503, "s1"⟩
      else if k = 1 then .failure ⟨none, "s2"⟩ else .success (.arr []))).1
      ⟨some 503, "s1"⟩ ⟨none, "s2"⟩ (.arr []) rfl rfl rfl rfl rfl).2.1,
   ((C5_retry_policy (fun _ => .failure ⟨some 404, "nf"⟩)).2.1
      ⟨some 404, "nf"⟩ rfl rfl).2.2.2⟩

end RestreamIO
